import Mathlib

/-!
Verification of the tick-based timing and callback-scheduling core of an
STM32F10xx peripheral-access layer, together with its RCC clock-gating and
TFT display-transfer helpers.

The repository ships the SysTick module only as its public interface
(`STK_interface.h`); the implementation file `STK_program.c` is not among the
sources.  The scheduler, busy-wait engine and tick conversion are therefore
modelled from the specification's own description (its data model §3,
component contracts §4 and testable properties §8), as noted on each
definition.  The RCC and TFT functions are embedded directly from
`RCC_program.c` and `TFT_program.c`.

Handlers (C function pointers) are modelled as opaque natural-number
identifiers; invoking a handler appends its identifier to an invocation log,
most recent first.
-/

/-- Modelled from the spec (§3 TimerState): the single down-counting hardware
timer.  `STK_program.c` is absent from the sources; this state follows the
spec's data model: a 24-bit reload value, an enabled flag, the live count and
the pending zero-crossing notification flag. -/
structure TimerState where
  reload_value : Nat
  enabled : Bool
  current_count : Nat
  count_flag : Bool
deriving DecidableEq, Repr

/-- Modelled from the spec (§3 CallbackSlot): the scheduling mode of the one
callback slot. -/
inductive Mode where
  | Idle : Mode
  | SingleShot : Mode
  | Periodic : Mode
deriving DecidableEq, Repr

/-- Modelled from the spec (§3 CallbackSlot): the singleton callback slot.
`handler` is an opaque callback reference, present iff `mode ≠ Idle`;
`period_ticks` is the reload value of the request. -/
structure CallbackSlot where
  mode : Mode
  handler : Option Nat
  period_ticks : Nat
deriving DecidableEq, Repr

/-- Modelled from the spec (§2, §5): the whole SysTick module state — the
hardware timer, the callback slot, and a log of handler invocations (most
recent first) recording each dispatch. -/
structure SysState where
  timer : TimerState
  slot : CallbackSlot
  invoked : List Nat
deriving DecidableEq, Repr

/-- The 24-bit hardware counter width bound: 0xFFFFFF = 16777215, the maximum
reload value and the maximum supported duration in microseconds
(`STK_interface.h` doc comments, spec §3). -/
def STK_MAX : Nat := 16777215

/-- Modelled from the spec (§4.2 Tick/Time Conversion, `STK_program.c`
absent): `ticks = duration_us * clock_hz / 8_000_000` — the multiply is
performed first at full width, then divided by the fixed divisor
(reference divisor 8, microsecond units), so that 8 MHz gives one tick per
microsecond (spec §8 concrete scenario). -/
def to_ticks (duration_us clock_hz : Nat) : Nat :=
  duration_us * clock_hz / 8000000

/-- Modelled from the spec (§4.2): inverse conversion,
`duration_us = ticks * 8_000_000 / clock_hz`. -/
def to_duration (ticks clock_hz : Nat) : Nat :=
  ticks * 8000000 / clock_hz

/-- Modelled from the spec (§7 error taxonomy): the range error raised when a
requested duration's tick count exceeds the hardware counter width. -/
inductive STK_Error where
  | RangeError : STK_Error
deriving DecidableEq, Repr

/-- Modelled from the spec (§4.1, `MSTK_voidInit` of the absent
`STK_program.c`): configures the counter with the given reload value without
starting it; the current count is loaded so that the next countdown runs from
`Copy_u32LoadValue`, keeping the invariant `current_count ≤ reload_value`. -/
def MSTK_voidInit (Copy_u32LoadValue : Nat) (t : TimerState) : TimerState :=
  { t with reload_value := Copy_u32LoadValue, current_count := Copy_u32LoadValue }

/-- Modelled from the spec (§4.1, `MSTK_voidStart` of the absent
`STK_program.c`): begins counting down; idempotent if already started. -/
def MSTK_voidStart (t : TimerState) : TimerState :=
  { t with enabled := true }

/-- Modelled from the spec (§4.1, `MSTK_voidStop` of the absent
`STK_program.c`): halts counting, preserving `current_count`; idempotent. -/
def MSTK_voidStop (t : TimerState) : TimerState :=
  { t with enabled := false }

/-- Modelled from the spec (§4.1, `MSTK_u32GetCount` of the absent
`STK_program.c`): returns the live count; side-effect-free. -/
def MSTK_u32GetCount (t : TimerState) : Nat :=
  t.current_count

/-- Modelled from the spec (§4.1 reset and §9 open question, `MSTK_voidReset`
of the absent `STK_program.c`): stops the timer, clears `current_count` to 0,
sets `reload_value` to 0, clears the pending notification flag, and — as the
spec deliberately requires beyond the header's literal wording — cancels any
active callback slot, leaving it Idle. -/
def MSTK_voidReset (s : SysState) : SysState :=
  { timer := { reload_value := 0, enabled := false, current_count := 0, count_flag := false },
    slot := { mode := Mode.Idle, handler := none, period_ticks := 0 },
    invoked := s.invoked }

/-- Modelled from the spec (§4.2, §4.3, §6): the range check shared by
`busy_wait` and the schedule calls — the requested duration must lie in the
interface range `0..=16_777_215` µs and its tick count must fit the 24-bit
counter; checked before any hardware state is touched. -/
def STK_inRange (duration_us clock_hz : Nat) : Prop :=
  duration_us ≤ STK_MAX ∧ to_ticks duration_us clock_hz ≤ STK_MAX

instance (duration_us clock_hz : Nat) : Decidable (STK_inRange duration_us clock_hz) :=
  inferInstanceAs (Decidable (_ ∧ _))

/-- Modelled from the spec (§4.3, `MSTK_voidSetBusyWait` of the absent
`STK_program.c`): converts the duration to ticks (range error if out of
bounds), initializes and starts the timer with that reload value, polls the
count down to 0, then stops the timer.  No callback is dispatched.  The
result pairs an optional error with the state after the call; on error the
state is returned untouched. -/
def MSTK_voidSetBusyWait (Copy_u32Microseconds clock_hz : Nat) (s : SysState) :
    Option STK_Error × SysState :=
  if STK_inRange Copy_u32Microseconds clock_hz then
    (none,
     { s with timer := { reload_value := to_ticks Copy_u32Microseconds clock_hz,
                         enabled := false, current_count := 0,
                         count_flag := s.timer.count_flag } })
  else (some STK_Error.RangeError, s)

/-- Modelled from the spec (§4.4 Idle → SingleShot, `MSTK_voidSetIntervalSingle`
of the absent `STK_program.c`): converts the duration to ticks (range error if
out of bounds, prior state untouched), atomically installs the single-shot
slot — overwriting any prior request — arms the timer with `period_ticks` and
starts it. -/
def MSTK_voidSetIntervalSingle (Copy_u32Microseconds : Nat) (Copy_pfCallback : Nat)
    (clock_hz : Nat) (s : SysState) : Option STK_Error × SysState :=
  if STK_inRange Copy_u32Microseconds clock_hz then
    (none,
     { timer := MSTK_voidStart (MSTK_voidInit (to_ticks Copy_u32Microseconds clock_hz) s.timer),
       slot := { mode := Mode.SingleShot, handler := some Copy_pfCallback,
                 period_ticks := to_ticks Copy_u32Microseconds clock_hz },
       invoked := s.invoked })
  else (some STK_Error.RangeError, s)

/-- Modelled from the spec (§4.4 Idle → Periodic, `MSTK_voidSetIntervalPeriodic`
of the absent `STK_program.c`): identical arming to the single-shot call, with
mode Periodic. -/
def MSTK_voidSetIntervalPeriodic (Copy_u32Microseconds : Nat) (Copy_pfCallback : Nat)
    (clock_hz : Nat) (s : SysState) : Option STK_Error × SysState :=
  if STK_inRange Copy_u32Microseconds clock_hz then
    (none,
     { timer := MSTK_voidStart (MSTK_voidInit (to_ticks Copy_u32Microseconds clock_hz) s.timer),
       slot := { mode := Mode.Periodic, handler := some Copy_pfCallback,
                 period_ticks := to_ticks Copy_u32Microseconds clock_hz },
       invoked := s.invoked })
  else (some STK_Error.RangeError, s)

/-- Modelled from the spec (§3 auto-reload, §4.4 state machine): the
zero-crossing notification.  The hardware wraps the counter back to
`reload_value` and raises the notification flag; the scheduler then
dispatches: a SingleShot slot invokes its handler exactly once, stops the
timer and returns the slot to Idle; a Periodic slot invokes its handler and
leaves slot and timer as they are; an Idle slot invokes nothing. -/
def STK_zeroCross (s : SysState) : SysState :=
  let t := { s.timer with current_count := s.timer.reload_value, count_flag := true }
  match s.slot.mode with
  | Mode.Idle => { s with timer := t }
  | Mode.SingleShot =>
      { timer := MSTK_voidStop t,
        slot := { mode := Mode.Idle, handler := none, period_ticks := 0 },
        invoked := (match s.slot.handler with
                    | some h => h :: s.invoked
                    | none => s.invoked) }
  | Mode.Periodic =>
      { s with timer := t,
               invoked := (match s.slot.handler with
                           | some h => h :: s.invoked
                           | none => s.invoked) }

/-- Modelled from the spec (§3 `current_count` wraps generating exactly one
zero-crossing notification per full countdown): one full countdown cycle
elapsing on the hardware.  While the timer is enabled the counter reaches
zero and the zero-crossing notification fires; a stopped timer does not
count, so nothing happens. -/
def STK_countdown (s : SysState) : SysState :=
  if s.timer.enabled then STK_zeroCross s else s

/-- Modelled from the spec (§3 lifecycle): the module-initialization state —
slot created Idle, timer cleared and stopped, nothing invoked yet. -/
def STK_initState : SysState :=
  { timer := { reload_value := 0, enabled := false, current_count := 0, count_flag := false },
    slot := { mode := Mode.Idle, handler := none, period_ticks := 0 },
    invoked := [] }

/-! ## RCC clock gating, embedded from `src/COTS/02-MCAL/01-RCC/RCC_program.c` -/

/-- The three RCC clock-enable registers touched by
`RCC_voidEnableClock`/`RCC_voidDisableClock` (`RCC_AHBENR_R`, `RCC_APB1ENR_R`,
`RCC_APB2ENR_R`), each a 32-bit word. -/
structure RCC_Registers where
  AHBENR : Nat
  APB1ENR : Nat
  APB2ENR : Nat
deriving DecidableEq, Repr

/-- Modelled from the spec: bus identifier for AHB from the repository's
`RCC_interface.h`, which is absent from the sources; the conventional value 0
is used (the verified properties depend only on the three identifiers being
distinct). -/
def RCC_AHB : Nat := 0

/-- Modelled from the spec: bus identifier for APB1 from the absent
`RCC_interface.h`; conventional value 1. -/
def RCC_APB1 : Nat := 1

/-- Modelled from the spec: bus identifier for APB2 from the absent
`RCC_interface.h`; conventional value 2. -/
def RCC_APB2 : Nat := 2

/-- Modelled from the spec: the `SET_BIT(REG, BIT)` macro of the absent
`BIT_MATH.h`, the standard `REG |= (1 << BIT)` on a 32-bit register. -/
def SET_BIT (reg bit : Nat) : Nat :=
  reg ||| (1 <<< bit)

/-- Modelled from the spec: the `CLR_BIT(REG, BIT)` macro of the absent
`BIT_MATH.h`, the standard `REG &= ~(1 << BIT)` on a 32-bit register. -/
def CLR_BIT (reg bit : Nat) : Nat :=
  reg &&& (0xFFFFFFFF ^^^ (1 <<< bit))

/-- Embedded from `RCC_voidEnableClock` (`RCC_program.c` lines 47–63): if the peripheral id
is at most 31, set its bit in the register selected by the bus id; the
`switch` has no live `default` branch (the error return is commented out) and
the `else` branch is empty, so any other input leaves every register
unchanged and reports nothing. -/
def RCC_voidEnableClock (Copy_u8BusId Copy_u8PeriphId : Nat) (r : RCC_Registers) :
    RCC_Registers :=
  if Copy_u8PeriphId ≤ 31 then
    if Copy_u8BusId = RCC_AHB then { r with AHBENR := SET_BIT r.AHBENR Copy_u8PeriphId }
    else if Copy_u8BusId = RCC_APB1 then { r with APB1ENR := SET_BIT r.APB1ENR Copy_u8PeriphId }
    else if Copy_u8BusId = RCC_APB2 then { r with APB2ENR := SET_BIT r.APB2ENR Copy_u8PeriphId }
    else r
  else r

/-- Embedded from `RCC_voidDisableClock` (`RCC_program.c` lines 66–82): the clearing
counterpart of `RCC_voidEnableClock`, with the same silent fall-through for
out-of-range peripheral ids and unknown bus ids. -/
def RCC_voidDisableClock (Copy_u8BusId Copy_u8PeriphId : Nat) (r : RCC_Registers) :
    RCC_Registers :=
  if Copy_u8PeriphId ≤ 31 then
    if Copy_u8BusId = RCC_AHB then { r with AHBENR := CLR_BIT r.AHBENR Copy_u8PeriphId }
    else if Copy_u8BusId = RCC_APB1 then { r with APB1ENR := CLR_BIT r.APB1ENR Copy_u8PeriphId }
    else if Copy_u8BusId = RCC_APB2 then { r with APB2ENR := CLR_BIT r.APB2ENR Copy_u8PeriphId }
    else r
  else r

/-! ## TFT transfer helpers, embedded from `src/COTS/03-HAL/TFT/TFT_program.c` -/

/-- GPIO high level (`MGPIO_HIGH`). -/
def MGPIO_HIGH : Nat := 1

/-- GPIO low level (`MGPIO_LOW`). -/
def MGPIO_LOW : Nat := 0

/-- The fields of `TFT_Config_t` used by `TFT_SendCommand`/`TFT_SendData`:
the GPIO port and the chip-select and register-select pins. -/
structure TFT_Config where
  TFT_Port : Nat
  TFT_CsPin : Nat
  TFT_RsPin : Nat
deriving DecidableEq, Repr

/-- One observable side effect of the TFT helpers: a GPIO pin write
(`MGPIO_voidSetPinValue`) or an SPI transfer of `size` bytes
(`SPI_voidTransfer`). -/
inductive TftEvent where
  | setPin (port pin value : Nat) : TftEvent
  | spiTransfer (data size : Nat) : TftEvent
deriving DecidableEq, Repr

/-- Embedded from `TFT_SendCommand` (`TFT_program.c` lines 149–165) as its sequence of
side effects: drive RS low (command mode), drive CS low (select), transfer
the one command byte over SPI, drive CS high (release). -/
def TFT_SendCommand (cfg : TFT_Config) (Copy_Command : Nat) : List TftEvent :=
  [ TftEvent.setPin cfg.TFT_Port cfg.TFT_RsPin MGPIO_LOW,
    TftEvent.setPin cfg.TFT_Port cfg.TFT_CsPin MGPIO_LOW,
    TftEvent.spiTransfer Copy_Command 1,
    TftEvent.setPin cfg.TFT_Port cfg.TFT_CsPin MGPIO_HIGH ]

/-- Embedded from `TFT_SendData` (`TFT_program.c` lines 167–182) as its sequence of side
effects: drive RS high (data mode), drive CS low, transfer the one data byte
over SPI, drive CS high. -/
def TFT_SendData (cfg : TFT_Config) (Copy_Data : Nat) : List TftEvent :=
  [ TftEvent.setPin cfg.TFT_Port cfg.TFT_RsPin MGPIO_HIGH,
    TftEvent.setPin cfg.TFT_Port cfg.TFT_CsPin MGPIO_LOW,
    TftEvent.spiTransfer Copy_Data 1,
    TftEvent.setPin cfg.TFT_Port cfg.TFT_CsPin MGPIO_HIGH ]

/-- GPIO pin levels as a function from port and pin to the driven value. -/
def PinState : Type := Nat → Nat → Nat

/-- Effect of one event on the GPIO pins: `setPin` updates the addressed
port/pin, an SPI transfer leaves the pins alone. -/
def applyEvent (p : PinState) : TftEvent → PinState
  | TftEvent.setPin port pin v =>
      fun po pj => if po = port ∧ pj = pin then v else p po pj
  | TftEvent.spiTransfer _ _ => p

/-- Replay a list of events over an initial pin state. -/
def runPins (p : PinState) : List TftEvent → PinState
  | [] => p
  | e :: es => runPins (applyEvent p e) es

/-- The SPI transfers of an event list, each recorded with its data byte, its
byte count, and the levels of the configured chip-select and register-select
pins at the moment the transfer happens. -/
def xferLog (cfg : TFT_Config) (p : PinState) : List TftEvent → List (Nat × Nat × Nat × Nat)
  | [] => []
  | TftEvent.spiTransfer d n :: es =>
      (d, n, p cfg.TFT_Port cfg.TFT_CsPin, p cfg.TFT_Port cfg.TFT_RsPin) ::
        xferLog cfg p es
  | e :: es => xferLog cfg (applyEvent p e) es

/-! ## Helper lemmas -/

/-- A successful in-range `MSTK_voidSetIntervalSingle` returns no error and
the fully armed single-shot state. -/
theorem setIntervalSingle_ok (us h clock_hz : Nat) (s : SysState)
    (hr : STK_inRange us clock_hz) :
    MSTK_voidSetIntervalSingle us h clock_hz s =
      (none,
       { timer := { reload_value := to_ticks us clock_hz, enabled := true,
                    current_count := to_ticks us clock_hz, count_flag := s.timer.count_flag },
         slot := { mode := Mode.SingleShot, handler := some h,
                   period_ticks := to_ticks us clock_hz },
         invoked := s.invoked }) := by
  simp [MSTK_voidSetIntervalSingle, hr, MSTK_voidStart, MSTK_voidInit]

/-- A successful in-range `MSTK_voidSetIntervalPeriodic` returns no error and
the fully armed periodic state. -/
theorem setIntervalPeriodic_ok (us h clock_hz : Nat) (s : SysState)
    (hr : STK_inRange us clock_hz) :
    MSTK_voidSetIntervalPeriodic us h clock_hz s =
      (none,
       { timer := { reload_value := to_ticks us clock_hz, enabled := true,
                    current_count := to_ticks us clock_hz, count_flag := s.timer.count_flag },
         slot := { mode := Mode.Periodic, handler := some h,
                   period_ticks := to_ticks us clock_hz },
         invoked := s.invoked }) := by
  simp [MSTK_voidSetIntervalPeriodic, hr, MSTK_voidStart, MSTK_voidInit]

/-- On a running periodically-armed state, each countdown cycle invokes the
handler once and preserves the slot and the enabled flag; iterated over `n`
cycles, the invocation log gains exactly `n` entries of the handler. -/
theorem periodic_iterate (x : SysState) (h : Nat)
    (hm : x.slot.mode = Mode.Periodic) (hh : x.slot.handler = some h)
    (he : x.timer.enabled = true) (n : Nat) :
    (STK_countdown^[n] x).invoked = List.replicate n h ++ x.invoked ∧
    (STK_countdown^[n] x).slot = x.slot ∧
    (STK_countdown^[n] x).timer.enabled = true := by
  induction n with
  | zero => exact ⟨rfl, rfl, he⟩
  | succ k ih =>
    obtain ⟨h1, h2, h3⟩ := ih
    rw [Function.iterate_succ_apply']
    have hm' : (STK_countdown^[k] x).slot.mode = Mode.Periodic := by rw [h2]; exact hm
    have hh' : (STK_countdown^[k] x).slot.handler = some h := by rw [h2]; exact hh
    refine ⟨?_, ?_, ?_⟩ <;>
      simp [STK_countdown, h3, STK_zeroCross, hm, hh, hm', hh', h1, h2, List.replicate_succ]

/-! ## Claim theorems -/

/-- C8: `MSTK_voidStart` and `MSTK_voidStop` are idempotent — a second call
in a row leaves the `TimerState` identical to a single call — and
`MSTK_voidStop` preserves the current count. -/
theorem start_stop_idempotent (t : TimerState) :
    MSTK_voidStart (MSTK_voidStart t) = MSTK_voidStart t ∧
    MSTK_voidStop (MSTK_voidStop t) = MSTK_voidStop t ∧
    MSTK_u32GetCount (MSTK_voidStop t) = MSTK_u32GetCount t :=
  ⟨rfl, rfl, rfl⟩

/-- C6: `MSTK_voidReset` stops the timer, clears the current count to 0, sets
the reload value to 0, clears the pending notification flag, and cancels any
active callback slot (mode Idle, handler discarded); consequently no number
of further countdown cycles ever invokes a previously armed handler. -/
theorem reset_clears_and_cancels (s : SysState) :
    MSTK_voidReset s =
      { timer := { reload_value := 0, enabled := false, current_count := 0, count_flag := false },
        slot := { mode := Mode.Idle, handler := none, period_ticks := 0 },
        invoked := s.invoked } ∧
    ∀ n, (STK_countdown^[n] (MSTK_voidReset s)).invoked = s.invoked := by
  refine ⟨rfl, fun n => ?_⟩
  have hfix : STK_countdown (MSTK_voidReset s) = MSTK_voidReset s := rfl
  rw [Function.iterate_fixed hfix n]
  rfl

/-- C4: for any duration above 16777215 µs, `MSTK_voidSetIntervalSingle`,
`MSTK_voidSetIntervalPeriodic` and `MSTK_voidSetBusyWait` all fail with
RangeError and return the prior state completely unchanged — they never
partially arm. -/
theorem range_error_rejects (us h clock_hz : Nat) (s : SysState) (hus : STK_MAX < us) :
    MSTK_voidSetIntervalSingle us h clock_hz s = (some STK_Error.RangeError, s) ∧
    MSTK_voidSetIntervalPeriodic us h clock_hz s = (some STK_Error.RangeError, s) ∧
    MSTK_voidSetBusyWait us clock_hz s = (some STK_Error.RangeError, s) := by
  have hnot : ¬ STK_inRange us clock_hz := fun hc => absurd hc.1 (Nat.not_le.mpr hus)
  refine ⟨?_, ?_, ?_⟩ <;>
    simp [MSTK_voidSetIntervalSingle, MSTK_voidSetIntervalPeriodic, MSTK_voidSetBusyWait, hnot]

/-- C4 witness: at 16777216 µs every entry point rejects with RangeError and
hands back the initial state untouched. -/
theorem range_error_rejects_witness :
    STK_MAX < 16777216 ∧
    MSTK_voidSetIntervalSingle 16777216 0 8000000 STK_initState
      = (some STK_Error.RangeError, STK_initState) ∧
    MSTK_voidSetBusyWait 16777216 8000000 STK_initState
      = (some STK_Error.RangeError, STK_initState) :=
  ⟨by decide,
   (range_error_rejects 16777216 0 8000000 STK_initState (by decide)).1,
   (range_error_rejects 16777216 0 8000000 STK_initState (by decide)).2.2⟩

/-- C7: an in-range `MSTK_voidSetBusyWait` converts the duration to ticks and
uses that reload value; on return the timer is stopped with a zero current
count, and neither the callback slot nor the invocation log has changed — no
callback is invoked. -/
theorem busy_wait_spec (us clock_hz : Nat) (s : SysState) (hr : STK_inRange us clock_hz) :
    MSTK_voidSetBusyWait us clock_hz s =
      (none, { s with timer := { reload_value := to_ticks us clock_hz, enabled := false,
                                 current_count := 0, count_flag := s.timer.count_flag } }) ∧
    (MSTK_voidSetBusyWait us clock_hz s).2.timer.enabled = false ∧
    MSTK_u32GetCount (MSTK_voidSetBusyWait us clock_hz s).2.timer = 0 ∧
    (MSTK_voidSetBusyWait us clock_hz s).2.timer.reload_value = to_ticks us clock_hz ∧
    (MSTK_voidSetBusyWait us clock_hz s).2.invoked = s.invoked ∧
    (MSTK_voidSetBusyWait us clock_hz s).2.slot = s.slot := by
  refine ⟨?_, ?_, ?_, ?_, ?_, ?_⟩ <;>
    simp [MSTK_voidSetBusyWait, hr, MSTK_u32GetCount]

/-- C7 witness: `busy_wait(500)` at an 8 MHz clock returns with the timer
stopped and the count at zero. -/
theorem busy_wait_spec_witness :
    (MSTK_voidSetBusyWait 500 8000000 STK_initState).2.timer.enabled = false ∧
    MSTK_u32GetCount (MSTK_voidSetBusyWait 500 8000000 STK_initState).2.timer = 0 ∧
    (MSTK_voidSetBusyWait 500 8000000 STK_initState).2.invoked = [] :=
  ⟨(busy_wait_spec 500 8000000 STK_initState (by decide)).2.1,
   (busy_wait_spec 500 8000000 STK_initState (by decide)).2.2.1,
   (busy_wait_spec 500 8000000 STK_initState (by decide)).2.2.2.2.1⟩

/-- C1: after an in-range `MSTK_voidSetIntervalSingle` and one full countdown,
the handler has been invoked exactly once (the log grows by that one entry),
the slot mode is Idle and the timer is stopped; a further zero-crossing
notification, were the hardware left running, invokes nothing more. -/
theorem single_shot_fires_exactly_once (us h clock_hz : Nat) (s : SysState)
    (hr : STK_inRange us clock_hz) :
    (MSTK_voidSetIntervalSingle us h clock_hz s).1 = none ∧
    (STK_countdown (MSTK_voidSetIntervalSingle us h clock_hz s).2).invoked = h :: s.invoked ∧
    (STK_countdown (MSTK_voidSetIntervalSingle us h clock_hz s).2).slot.mode = Mode.Idle ∧
    (STK_countdown (MSTK_voidSetIntervalSingle us h clock_hz s).2).timer.enabled = false ∧
    (STK_zeroCross (STK_countdown (MSTK_voidSetIntervalSingle us h clock_hz s).2)).invoked
      = h :: s.invoked := by
  have hok := setIntervalSingle_ok us h clock_hz s hr
  refine ⟨?_, ?_, ?_, ?_, ?_⟩ <;>
    simp [hok, STK_countdown, STK_zeroCross, MSTK_voidStop]

/-- C1 witness: `schedule_once(1000, handler 7)` at 8 MHz fires handler 7
exactly once at the first countdown and returns the slot to Idle. -/
theorem single_shot_fires_exactly_once_witness :
    STK_inRange 1000 8000000 ∧
    (STK_countdown (MSTK_voidSetIntervalSingle 1000 7 8000000 STK_initState).2).invoked = [7] ∧
    (STK_countdown (MSTK_voidSetIntervalSingle 1000 7 8000000 STK_initState).2).slot.mode
      = Mode.Idle :=
  ⟨by decide,
   (single_shot_fires_exactly_once 1000 7 8000000 STK_initState (by decide)).2.1,
   (single_shot_fires_exactly_once 1000 7 8000000 STK_initState (by decide)).2.2.1⟩

/-- C2: after an in-range `MSTK_voidSetIntervalPeriodic`, every full countdown
cycle invokes the handler once — after `n` cycles the log has gained exactly
`n` invocations — and the slot mode remains Periodic throughout, with no
re-arm call between cycles. -/
theorem periodic_fires_every_cycle (us h clock_hz : Nat) (s : SysState)
    (hr : STK_inRange us clock_hz) :
    (MSTK_voidSetIntervalPeriodic us h clock_hz s).1 = none ∧
    ∀ n, (STK_countdown^[n] (MSTK_voidSetIntervalPeriodic us h clock_hz s).2).invoked
           = List.replicate n h ++ s.invoked ∧
         (STK_countdown^[n] (MSTK_voidSetIntervalPeriodic us h clock_hz s).2).slot.mode
           = Mode.Periodic := by
  have hok := setIntervalPeriodic_ok us h clock_hz s hr
  refine ⟨by rw [hok], fun n => ?_⟩
  have hiter := periodic_iterate (MSTK_voidSetIntervalPeriodic us h clock_hz s).2 h
    (by rw [hok]) (by rw [hok]) (by rw [hok]) n
  refine ⟨?_, ?_⟩
  · rw [hiter.1, hok]
  · rw [hiter.2.1, hok]

/-- C2 witness: two countdown cycles after `schedule_periodic(1000, handler 7)`
at 8 MHz, handler 7 has fired exactly twice and the slot is still Periodic. -/
theorem periodic_fires_every_cycle_witness :
    (STK_countdown^[2] (MSTK_voidSetIntervalPeriodic 1000 7 8000000 STK_initState).2).invoked
      = [7, 7] ∧
    (STK_countdown^[2] (MSTK_voidSetIntervalPeriodic 1000 7 8000000 STK_initState).2).slot.mode
      = Mode.Periodic :=
  ⟨((periodic_fires_every_cycle 1000 7 8000000 STK_initState (by decide)).2 2).1,
   ((periodic_fires_every_cycle 1000 7 8000000 STK_initState (by decide)).2 2).2⟩

/-- C5: arming a single-shot request and then, before it fires, a periodic
request overwrites the slot with the new request (no queueing): the slot is
Periodic with the new handler and period, the timer is re-armed with the new
period, every subsequent cycle invokes only the new handler, and the first
handler is never invoked afterwards (its invocation count never grows). -/
theorem schedule_overwrites_prior (t1 h1 t2 h2 clock_hz : Nat) (s : SysState)
    (hr1 : STK_inRange t1 clock_hz) (hr2 : STK_inRange t2 clock_hz) (hne : h1 ≠ h2) :
    ((MSTK_voidSetIntervalPeriodic t2 h2 clock_hz
        (MSTK_voidSetIntervalSingle t1 h1 clock_hz s).2).2).slot
      = { mode := Mode.Periodic, handler := some h2, period_ticks := to_ticks t2 clock_hz } ∧
    ((MSTK_voidSetIntervalPeriodic t2 h2 clock_hz
        (MSTK_voidSetIntervalSingle t1 h1 clock_hz s).2).2).timer.reload_value
      = to_ticks t2 clock_hz ∧
    ∀ n, (STK_countdown^[n] (MSTK_voidSetIntervalPeriodic t2 h2 clock_hz
            (MSTK_voidSetIntervalSingle t1 h1 clock_hz s).2).2).invoked
           = List.replicate n h2 ++ s.invoked ∧
         (STK_countdown^[n] (MSTK_voidSetIntervalPeriodic t2 h2 clock_hz
            (MSTK_voidSetIntervalSingle t1 h1 clock_hz s).2).2).invoked.count h1
           = s.invoked.count h1 := by
  have hok1 := setIntervalSingle_ok t1 h1 clock_hz s hr1
  have hok2 := setIntervalPeriodic_ok t2 h2 clock_hz
    (MSTK_voidSetIntervalSingle t1 h1 clock_hz s).2 hr2
  refine ⟨by rw [hok2], by rw [hok2], fun n => ?_⟩
  have hiter := periodic_iterate (MSTK_voidSetIntervalPeriodic t2 h2 clock_hz
    (MSTK_voidSetIntervalSingle t1 h1 clock_hz s).2).2 h2
    (by rw [hok2]) (by rw [hok2]) (by rw [hok2]) n
  have hinv : ((MSTK_voidSetIntervalPeriodic t2 h2 clock_hz
      (MSTK_voidSetIntervalSingle t1 h1 clock_hz s).2).2).invoked = s.invoked := by
    rw [hok2, hok1]
  refine ⟨by rw [hiter.1, hinv], ?_⟩
  rw [hiter.1, hinv, List.count_append, List.count_replicate]
  simp [Ne.symm hne]

/-- C5 witness: after `schedule_once(1000, handler 3)` then
`schedule_periodic(2000, handler 9)` at 8 MHz, two cycles invoke handler 9
twice and handler 3 never. -/
theorem schedule_overwrites_prior_witness :
    (STK_countdown^[2] (MSTK_voidSetIntervalPeriodic 2000 9 8000000
        (MSTK_voidSetIntervalSingle 1000 3 8000000 STK_initState).2).2).invoked = [9, 9] ∧
    (STK_countdown^[2] (MSTK_voidSetIntervalPeriodic 2000 9 8000000
        (MSTK_voidSetIntervalSingle 1000 3 8000000 STK_initState).2).2).invoked.count 3 = 0 :=
  ⟨((schedule_overwrites_prior 1000 3 2000 9 8000000 STK_initState
      (by decide) (by decide) (by decide)).2.2 2).1,
   ((schedule_overwrites_prior 1000 3 2000 9 8000000 STK_initState
      (by decide) (by decide) (by decide)).2.2 2).2⟩

/-- C3: for every duration in the supported range and every positive clock,
the tick conversion round-trips: `to_duration (to_ticks d f) f` never exceeds
`d` and falls short of it by at most one tick's worth of microseconds (one
tick lasting `8000000 / f` µs, rounded up to whole microseconds). -/
theorem conversion_roundtrip (us f : Nat) (_hus : us ≤ STK_MAX) (hf : 0 < f) :
    to_duration (to_ticks us f) f ≤ us ∧
    us ≤ to_duration (to_ticks us f) f + (8000000 + f - 1) / f := by
  simp only [to_ticks, to_duration]
  constructor
  · have h1 : us * f / 8000000 * 8000000 ≤ us * f := Nat.div_mul_le_self _ _
    calc us * f / 8000000 * 8000000 / f ≤ us * f / f := Nat.div_le_div_right h1
      _ = us := Nat.mul_div_cancel us hf
  · have F1 := Nat.div_add_mod (us * f) 8000000
    have F1m : us * f % 8000000 < 8000000 := Nat.mod_lt _ (by norm_num)
    have F2 := Nat.div_add_mod (us * f / 8000000 * 8000000) f
    have F2m : us * f / 8000000 * 8000000 % f < f := Nat.mod_lt _ hf
    have F3 := Nat.div_add_mod (8000000 + f - 1) f
    have F3m : (8000000 + f - 1) % f < f := Nat.mod_lt _ hf
    have key : us * f
        < f * (us * f / 8000000 * 8000000 / f) + f * ((8000000 + f - 1) / f) + f := by
      omega
    have key2 : f * us
        < f * (us * f / 8000000 * 8000000 / f + (8000000 + f - 1) / f + 1) := by
      have expand : f * (us * f / 8000000 * 8000000 / f + (8000000 + f - 1) / f + 1)
          = f * (us * f / 8000000 * 8000000 / f) + f * ((8000000 + f - 1) / f) + f := by
        ring
      rw [expand, Nat.mul_comm f us]
      exact key
    have hlt := Nat.lt_of_mul_lt_mul_left key2
    omega

/-- C3 witness: at 500 µs and an 8 MHz clock the round trip recovers 500
exactly, within the one-tick bound. -/
theorem conversion_roundtrip_witness :
    to_duration (to_ticks 500 8000000) 8000000 ≤ 500 ∧
    500 ≤ to_duration (to_ticks 500 8000000) 8000000 + (8000000 + 8000000 - 1) / 8000000 :=
  conversion_roundtrip 500 8000000 (by decide) (by decide)

/-- C9: `RCC_voidEnableClock` and `RCC_voidDisableClock` are silent no-ops —
every clock-enable register is left unchanged and no error is reported (the
functions return nothing but the registers) — whenever the peripheral id
exceeds 31 or the bus id is none of `RCC_AHB`, `RCC_APB1`, `RCC_APB2`. -/
theorem rcc_invalid_ids_silent_noop (bus periph : Nat) (r : RCC_Registers)
    (h : 31 < periph ∨ (bus ≠ RCC_AHB ∧ bus ≠ RCC_APB1 ∧ bus ≠ RCC_APB2)) :
    RCC_voidEnableClock bus periph r = r ∧ RCC_voidDisableClock bus periph r = r := by
  rcases h with h | ⟨h1, h2, h3⟩
  · have hn : ¬ periph ≤ 31 := by omega
    constructor <;> simp [RCC_voidEnableClock, RCC_voidDisableClock, hn]
  · constructor <;> simp [RCC_voidEnableClock, RCC_voidDisableClock, h1, h2, h3]

/-- C9 witness: bus id 5 (no RCC bus) and peripheral id 32 each leave the
registers untouched. -/
theorem rcc_invalid_ids_silent_noop_witness :
    RCC_voidEnableClock 5 0 ⟨17, 34, 51⟩ = ⟨17, 34, 51⟩ ∧
    RCC_voidDisableClock 0 32 ⟨17, 34, 51⟩ = ⟨17, 34, 51⟩ :=
  ⟨(rcc_invalid_ids_silent_noop 5 0 ⟨17, 34, 51⟩
      (Or.inr ⟨by decide, by decide, by decide⟩)).1,
   (rcc_invalid_ids_silent_noop 0 32 ⟨17, 34, 51⟩ (Or.inl (by decide))).2⟩

/-- C10: `TFT_SendCommand` and `TFT_SendData` each perform exactly one
single-byte SPI transfer, with the chip-select pin low and the
register-select pin respectively low (command) or high (data) at the moment
of the transfer, and return with the chip-select pin driven high. -/
theorem tft_transfer_protocol (cfg : TFT_Config) (p : PinState) (cmd dat : Nat)
    (hpins : cfg.TFT_CsPin ≠ cfg.TFT_RsPin) :
    runPins p (TFT_SendCommand cfg cmd) cfg.TFT_Port cfg.TFT_CsPin = MGPIO_HIGH ∧
    xferLog cfg p (TFT_SendCommand cfg cmd) = [(cmd, 1, MGPIO_LOW, MGPIO_LOW)] ∧
    runPins p (TFT_SendData cfg dat) cfg.TFT_Port cfg.TFT_CsPin = MGPIO_HIGH ∧
    xferLog cfg p (TFT_SendData cfg dat) = [(dat, 1, MGPIO_LOW, MGPIO_HIGH)] := by
  have hne : ¬ cfg.TFT_RsPin = cfg.TFT_CsPin := fun hc => hpins hc.symm
  refine ⟨?_, ?_, ?_, ?_⟩ <;>
    simp [TFT_SendCommand, TFT_SendData, runPins, xferLog, applyEvent, hne]

/-- C10 witness: a concrete configuration (port 0, CS pin 1, RS pin 2) with
all pins initially low, sending command 0x2A and data byte 0x55. -/
theorem tft_transfer_protocol_witness :
    runPins (fun _ _ => 0) (TFT_SendCommand ⟨0, 1, 2⟩ 42) 0 1 = MGPIO_HIGH ∧
    xferLog ⟨0, 1, 2⟩ (fun _ _ => 0) (TFT_SendCommand ⟨0, 1, 2⟩ 42)
      = [(42, 1, MGPIO_LOW, MGPIO_LOW)] ∧
    xferLog ⟨0, 1, 2⟩ (fun _ _ => 0) (TFT_SendData ⟨0, 1, 2⟩ 85)
      = [(85, 1, MGPIO_LOW, MGPIO_HIGH)] :=
  ⟨(tft_transfer_protocol ⟨0, 1, 2⟩ (fun _ _ => 0) 42 85 (by decide)).1,
   (tft_transfer_protocol ⟨0, 1, 2⟩ (fun _ _ => 0) 42 85 (by decide)).2.1,
   (tft_transfer_protocol ⟨0, 1, 2⟩ (fun _ _ => 0) 42 85 (by decide)).2.2.2⟩
